import Mathlib

/-!
Verification of the Emirates-2-cards extraction pipeline (src/main.py).

The repository is a single Streamlit script.  Its request-scoped logic
(secret loading, S3 upload, Textract OCR, chunk/retrieve/answer, JSON
parsing and display) is embedded shallowly below: external services are
oracles supplied through an `Env` record, exceptions become `Except`
values, and the sequence of external calls is recorded as a trace of
`Event`s.  The text splitter itself is library code configured by the
script, so it is modelled from the specification's chunking policy.
-/

/-! ## Chunker -/

/-- Chunk window size configured in `process_and_query` (src/main.py line 58). -/
def chunk_size : Nat := 512

/-- Chunk overlap configured in `process_and_query` (src/main.py line 58). -/
def chunk_overlap : Nat := 32

/-- Modelled from the spec: the body of the text splitter
(`RecursiveCharacterTextSplitter(chunk_size=512, chunk_overlap=32,
length_function=len)`, src/main.py line 58) lives in the langchain
library and is not part of this repository's files; the spec (section 4.1)
gives its policy: greedily pack characters into windows of at most 512
units, each new window starting 32 units before the end of the previous
one; text shorter than the window is a single chunk, empty text gives an
empty sequence. -/
def split_text (cs : List Char) : List (List Char) :=
  if _h : cs.length ≤ chunk_size then
    if cs.isEmpty then [] else [cs]
  else
    cs.take chunk_size :: split_text (cs.drop (chunk_size - chunk_overlap))
termination_by cs.length
decreasing_by
  simp only [List.length_drop, chunk_size, chunk_overlap] at *
  omega

/-- Concatenation with the declared overlap removed: the first chunk whole,
every later chunk with its first `chunk_overlap` units dropped. -/
def reassemble : List (List Char) → List Char
  | [] => []
  | c :: rest => c ++ (rest.map (fun d => d.drop chunk_overlap)).flatten

/-- Two consecutive chunks overlap by `chunk_overlap` units: the last
`chunk_overlap` units of the first equal the first `chunk_overlap` units
of the second. -/
def overlaps (a b : List Char) : Prop :=
  a.drop (a.length - chunk_overlap) = b.take chunk_overlap

theorem split_text_nil : split_text [] = [] := by
  rw [split_text]
  simp [chunk_size]

theorem split_text_small (cs : List Char) (h : cs.length ≤ chunk_size)
    (h0 : cs ≠ []) : split_text cs = [cs] := by
  rw [split_text]
  simp [h, h0]

theorem split_text_big (cs : List Char) (h : chunk_size < cs.length) :
    split_text cs =
      cs.take chunk_size :: split_text (cs.drop (chunk_size - chunk_overlap)) := by
  rw [split_text]
  simp [Nat.not_le.mpr h]

theorem split_text_chunk_length (cs : List Char) :
    ∀ c ∈ split_text cs, c.length ≤ chunk_size := by
  by_cases h : cs.length ≤ chunk_size
  · by_cases h0 : cs = []
    · subst h0
      simp [split_text_nil]
    · rw [split_text_small cs h h0]
      simpa using h
  · rw [split_text_big cs (Nat.lt_of_not_le h)]
    intro c hc
    rcases List.mem_cons.mp hc with hc | hc
    · subst hc
      simp [List.length_take_le chunk_size cs]
    · exact split_text_chunk_length (cs.drop (chunk_size - chunk_overlap)) c hc
termination_by cs.length
decreasing_by
  simp only [List.length_drop, chunk_size, chunk_overlap] at *
  omega

theorem split_text_flatten_drop (cs : List Char) :
    ((split_text cs).map (fun c => c.drop chunk_overlap)).flatten =
      cs.drop chunk_overlap := by
  by_cases h : cs.length ≤ chunk_size
  · by_cases h0 : cs = []
    · subst h0
      simp [split_text_nil]
    · rw [split_text_small cs h h0]
      simp
  · rw [split_text_big cs (Nat.lt_of_not_le h)]
    have ih := split_text_flatten_drop (cs.drop (chunk_size - chunk_overlap))
    simp only [List.map_cons, List.flatten_cons, ih]
    rw [List.drop_take, List.drop_drop]
    have h1 : chunk_size - chunk_overlap + chunk_overlap = chunk_size := by
      simp [chunk_size, chunk_overlap]
    have h2 : cs.drop chunk_size =
        (cs.drop chunk_overlap).drop (chunk_size - chunk_overlap) := by
      rw [List.drop_drop]
      have h3 : chunk_overlap + (chunk_size - chunk_overlap) = chunk_size := by
        simp [chunk_size, chunk_overlap]
      rw [h3]
    rw [h1, h2, List.take_append_drop]
termination_by cs.length
decreasing_by
  simp only [List.length_drop, chunk_size, chunk_overlap] at *
  omega

theorem split_text_reassemble (cs : List Char) :
    reassemble (split_text cs) = cs := by
  by_cases h : cs.length ≤ chunk_size
  · by_cases h0 : cs = []
    · subst h0
      simp [split_text_nil, reassemble]
    · rw [split_text_small cs h h0]
      simp [reassemble]
  · rw [split_text_big cs (Nat.lt_of_not_le h), reassemble,
      split_text_flatten_drop, List.drop_drop]
    have h1 : chunk_size - chunk_overlap + chunk_overlap = chunk_size := by
      simp [chunk_size, chunk_overlap]
    rw [h1, List.take_append_drop]

theorem split_text_head_overlap (cs : List Char) (h : chunk_size < cs.length) :
    overlaps (cs.take chunk_size)
      ((cs.drop (chunk_size - chunk_overlap)).take chunk_size) := by
  unfold overlaps
  have hlen : (cs.take chunk_size).length = chunk_size := by
    simp [List.length_take, Nat.min_eq_left (Nat.le_of_lt h)]
  rw [hlen, List.drop_take, List.take_take]
  congr 1

theorem split_text_chain (cs : List Char) :
    List.Chain' overlaps (split_text cs) := by
  by_cases h : cs.length ≤ chunk_size
  · by_cases h0 : cs = []
    · subst h0
      simp [split_text_nil]
    · rw [split_text_small cs h h0]
      exact List.chain'_singleton cs
  · have hlt := Nat.lt_of_not_le h
    rw [split_text_big cs hlt]
    refine List.chain'_cons'.mpr ⟨?_, split_text_chain (cs.drop (chunk_size - chunk_overlap))⟩
    intro y hy
    set d := cs.drop (chunk_size - chunk_overlap) with hd
    have hdne : d ≠ [] := by
      have : 0 < d.length := by
        simp only [hd, List.length_drop, chunk_size, chunk_overlap] at *
        omega
      exact List.ne_nil_of_length_pos this
    by_cases hds : d.length ≤ chunk_size
    · rw [split_text_small d hds hdne] at hy
      simp only [List.head?_cons, Option.mem_def, Option.some.injEq] at hy
      subst hy
      have : d.take chunk_size = d := List.take_of_length_le hds
      rw [← this]
      exact split_text_head_overlap cs hlt
    · rw [split_text_big d (Nat.lt_of_not_le hds)] at hy
      simp only [List.head?_cons, Option.mem_def, Option.some.injEq] at hy
      subst hy
      exact split_text_head_overlap cs hlt
termination_by cs.length
decreasing_by
  simp only [List.length_drop, chunk_size, chunk_overlap] at *
  omega

/-! ## Configuration loading (src/main.py lines 14-31) -/

/-- The six required settings listed in `get_secrets` (src/main.py lines 15-22). -/
def required_secrets : List String :=
  ["OPENAI_API_KEY", "LLAMA_CLOUD_API_KEY", "AWS_ACCESS_KEY",
   "AWS_SECRET_KEY", "AWS_BUCKET_NAME", "AWS_REGION"]

/-- `get_secrets` (src/main.py lines 14-28): `st.secrets` is the mapping
`st_secrets`; a raised `ValueError` is the `Except.error` case. -/
def get_secrets (st_secrets : String → Option String) :
    Except String (List (String × String)) :=
  let missing_secrets := required_secrets.filter (fun s => (st_secrets s).isNone)
  if missing_secrets.isEmpty then
    Except.ok (required_secrets.map (fun s => (s, (st_secrets s).getD "")))
  else
    Except.error ("Missing required secrets: " ++ String.intercalate ", " missing_secrets)

/-- The process state after the module-level code (src/main.py lines 31-47)
has run: the loaded secrets, from which the storage and OCR clients are
built. -/
structure AppClients where
  secrets : List (String × String)

/-- Module-level startup (src/main.py line 31): `get_secrets()` runs before
any request is served; its `ValueError` propagates and aborts the process. -/
def startup (st_secrets : String → Option String) : Except String AppClients :=
  (get_secrets st_secrets).map (fun m => AppClients.mk m)

/-! ## Pipeline embedding (src/main.py lines 49-252) -/

/-- One document returned by the Textract loader (src/main.py lines 67-69). -/
structure Document where
  page_content : String

/-- Outcome of one `s3_client.upload_fileobj` call: success, a raised
`NoCredentialsError` (the only exception `upload_to_s3` catches,
src/main.py line 54), or any other raised exception. -/
inductive UploadResult where
  | ok : UploadResult
  | noCredentials : UploadResult
  | otherException : UploadResult
deriving DecidableEq

/-- The external services as oracles: one value per call the script makes.
`Except.error` models a raised exception carrying `str(e)`. -/
structure Env where
  bucket : String
  frontUpload : UploadResult
  backUpload : UploadResult
  ocr : String → Except String (List Document)
  embedIndex : List String → Except String Unit
  search : String → Except String (List String)
  generate : List String → String → Except String String

/-- One recorded external call of the pipeline, in program order. -/
inductive Event where
  | upload : String → Event
  | ocr : String → Event
  | chunk : String → Event
  | embedIndex : List String → Event
  | search : String → Event
  | generate : String → Event
deriving DecidableEq

/-- What the user is shown at the end of one script run. -/
inductive Outcome where
  | noOutput : Outcome
  | warning : String → Outcome
  | errorMsg : String → Outcome
  | fields : List (String × String) → List (String × String) → Outcome
  | uncaught : Outcome
deriving DecidableEq

/-- What `upload_to_s3` does, seen from its caller: a returned locator,
a returned `None`, or an exception that escapes it. -/
inductive UploadReturn where
  | path : String → UploadReturn
  | noneValue : UploadReturn
  | raised : UploadReturn
deriving DecidableEq

/-- `upload_to_s3` (src/main.py lines 49-55): computes `folder/filename`,
uploads, and returns `s3://{bucket}/{s3_path}`; only `NoCredentialsError`
is caught (returning `None`); any other exception propagates. -/
def upload_to_s3 (bucket : String) (result : UploadResult)
    (filename folder : String) : UploadReturn :=
  let s3_path := folder ++ "/" ++ filename
  match result with
  | UploadResult.ok => UploadReturn.path ("s3://" ++ bucket ++ "/" ++ s3_path)
  | UploadResult.noCredentials => UploadReturn.noneValue
  | UploadResult.otherException => UploadReturn.raised

/-- The chunker applied to a Python string (src/main.py line 59). -/
def split_text_str (s : String) : List String :=
  (split_text s.data).map (fun c => String.mk c)

/-- The fixed front-side query (src/main.py lines 198-204). -/
def front_query : String :=
  "Extract the following information from the given text as key-value pairs:\n                        Full Name (list both given name and full name)\n                        Card ID Number (format: ###-####-#######-#)\n                        Date of Birth (format: DD/MM/YYYY)\n                        Issue Date (format: DD/MM/YYYY)\n                        Expiry Date (format: DD/MM/YYYY)\n                        Please return only these five fields in JSON format."

/-- The fixed back-side query (src/main.py lines 208-211). -/
def back_query : String :=
  "Extract the following from the text as key-value pairs:\n                        Occupation\n                        Employer name (starting with 'Employer:')\n                        Return these two fields in JSON format, ignoring any other text."

/-- `process_and_query` (src/main.py lines 57-64): split the text, embed the
chunks into a fresh index (`FAISS.from_texts`), run the similarity search,
then the QA chain.  Returns the chain's answer (or the first raised
exception) and the calls made. -/
def process_and_query (env : Env) (text query : String) :
    Except String String × List Event :=
  let texts := split_text_str text
  match env.embedIndex texts with
  | Except.error e => (Except.error e, [Event.chunk text, Event.embedIndex texts])
  | Except.ok _ =>
    match env.search query with
    | Except.error e =>
      (Except.error e, [Event.chunk text, Event.embedIndex texts, Event.search query])
    | Except.ok docs =>
      match env.generate docs query with
      | Except.error e =>
        (Except.error e,
         [Event.chunk text, Event.embedIndex texts, Event.search query,
          Event.generate query])
      | Except.ok answer =>
        (Except.ok answer,
         [Event.chunk text, Event.embedIndex texts, Event.search query,
          Event.generate query])

/-- `process_card_side` (src/main.py lines 66-69): run the Textract loader
and return `documents[0].page_content`; an empty document list raises
IndexError (message `list index out of range`). -/
def process_card_side (env : Env) (file_path : String) :
    Except String String × List Event :=
  match env.ocr file_path with
  | Except.error e => (Except.error e, [Event.ocr file_path])
  | Except.ok [] => (Except.error "list index out of range", [Event.ocr file_path])
  | Except.ok (d :: _) => (Except.ok d.page_content, [Event.ocr file_path])

/-- The body of the outer `try` in `main` (src/main.py lines 196-248): front
OCR, front query, back OCR, back query, then the inner `try` that parses
both answers as JSON and renders the fields.  `json_loads` models
`json.loads` on the answer string, returning the parsed object's items or
`none` for a `JSONDecodeError`; any `Except.error` from a step is caught
by `except Exception` and shown as the generic processing message. -/
def main_card_block (env : Env) (json_loads : String → Option (List (String × String)))
    (front_s3_path back_s3_path : String) : Outcome × List Event :=
  match process_card_side env front_s3_path with
  | (Except.error e, t1) => (Outcome.errorMsg ("Error during processing: " ++ e), t1)
  | (Except.ok front_text, t1) =>
    match process_and_query env front_text front_query with
    | (Except.error e, t2) =>
      (Outcome.errorMsg ("Error during processing: " ++ e), t1 ++ t2)
    | (Except.ok front_result, t2) =>
      match process_card_side env back_s3_path with
      | (Except.error e, t3) =>
        (Outcome.errorMsg ("Error during processing: " ++ e), t1 ++ t2 ++ t3)
      | (Except.ok back_text, t3) =>
        match process_and_query env back_text back_query with
        | (Except.error e, t4) =>
          (Outcome.errorMsg ("Error during processing: " ++ e), t1 ++ t2 ++ t3 ++ t4)
        | (Except.ok back_result, t4) =>
          match json_loads front_result, json_loads back_result with
          | some front_data, some back_data =>
            (Outcome.fields front_data back_data, t1 ++ t2 ++ t3 ++ t4)
          | _, _ =>
            (Outcome.errorMsg "Error processing the card information",
             t1 ++ t2 ++ t3 ++ t4)

/-- The submission handler of `main` (src/main.py lines 189-252): the button
guard, the two-file validation, the two uploads with fixed filenames
`front.jpg` and `back.jpg` under folder `cards`, the both-locators check,
and the processing block.  An exception escaping `upload_to_s3` is not
inside any `try` and leaves `main` uncaught. -/
def main_run (env : Env) (json_loads : String → Option (List (String × String)))
    (process_button front_file back_file : Bool) : Outcome × List Event :=
  if process_button then
    if front_file && back_file then
      match upload_to_s3 env.bucket env.frontUpload "front.jpg" "cards" with
      | UploadReturn.raised => (Outcome.uncaught, [Event.upload "cards/front.jpg"])
      | UploadReturn.path front_s3_path =>
        match upload_to_s3 env.bucket env.backUpload "back.jpg" "cards" with
        | UploadReturn.raised =>
          (Outcome.uncaught, [Event.upload "cards/front.jpg", Event.upload "cards/back.jpg"])
        | UploadReturn.path back_s3_path =>
          let r := main_card_block env json_loads front_s3_path back_s3_path
          (r.1, [Event.upload "cards/front.jpg", Event.upload "cards/back.jpg"] ++ r.2)
        | UploadReturn.noneValue =>
          (Outcome.errorMsg "Error uploading files",
           [Event.upload "cards/front.jpg", Event.upload "cards/back.jpg"])
      | UploadReturn.noneValue =>
        match upload_to_s3 env.bucket env.backUpload "back.jpg" "cards" with
        | UploadReturn.raised =>
          (Outcome.uncaught, [Event.upload "cards/front.jpg", Event.upload "cards/back.jpg"])
        | _ =>
          (Outcome.errorMsg "Error uploading files",
           [Event.upload "cards/front.jpg", Event.upload "cards/back.jpg"])
    else
      (Outcome.warning "Please upload both front and back images", [])
  else
    (Outcome.noOutput, [])

/-- The locator the front upload returns when it succeeds. -/
def front_path (env : Env) : String :=
  "s3://" ++ env.bucket ++ "/" ++ ("cards" ++ "/" ++ "front.jpg")

/-- The locator the back upload returns when it succeeds. -/
def back_path (env : Env) : String :=
  "s3://" ++ env.bucket ++ "/" ++ ("cards" ++ "/" ++ "back.jpg")

/-- The OCR text a side would produce under `env`, defaulting to the empty
string when the OCR call fails or returns no documents. -/
def ocr_text (env : Env) (path : String) : String :=
  match env.ocr path with
  | Except.ok (d :: _) => d.page_content
  | _ => ""

/-- The calls one side of the card contributes to a complete run. -/
def side_trace (env : Env) (path query : String) : List Event :=
  [Event.ocr path, Event.chunk (ocr_text env path),
   Event.embedIndex (split_text_str (ocr_text env path)),
   Event.search query, Event.generate query]

/-- The full program-order call sequence of a request in which every
external call succeeds; every actual trace is an initial segment of it. -/
def canonical_trace (env : Env) : List Event :=
  [Event.upload "cards/front.jpg", Event.upload "cards/back.jpg"] ++
    side_trace env (front_path env) front_query ++
    side_trace env (back_path env) back_query

theorem main_card_block_trace_le (env : Env)
    (json_loads : String → Option (List (String × String))) (fp bp : String) :
    ∃ rest, (main_card_block env json_loads fp bp).2 ++ rest =
      side_trace env fp front_query ++ side_trace env bp back_query := by
  rcases hf : env.ocr fp with e | docs
  · exact ⟨[Event.chunk (ocr_text env fp),
      Event.embedIndex (split_text_str (ocr_text env fp)),
      Event.search front_query, Event.generate front_query] ++
        side_trace env bp back_query,
      by simp [main_card_block, process_card_side, hf, side_trace]⟩
  · rcases docs with _ | ⟨df, rf⟩
    · exact ⟨[Event.chunk (ocr_text env fp),
        Event.embedIndex (split_text_str (ocr_text env fp)),
        Event.search front_query, Event.generate front_query] ++
          side_trace env bp back_query,
        by simp [main_card_block, process_card_side, hf, side_trace]⟩
    · rcases he : env.embedIndex (split_text_str df.page_content) with e | u
      · exact ⟨[Event.search front_query, Event.generate front_query] ++
          side_trace env bp back_query,
          by simp [main_card_block, process_card_side, process_and_query, hf, he,
            side_trace, ocr_text]⟩
      · rcases hs : env.search front_query with e | sf
        · exact ⟨[Event.generate front_query] ++ side_trace env bp back_query,
            by simp [main_card_block, process_card_side, process_and_query, hf, he, hs,
              side_trace, ocr_text]⟩
        · rcases hg : env.generate sf front_query with e | af
          · exact ⟨side_trace env bp back_query,
              by simp [main_card_block, process_card_side, process_and_query, hf, he,
                hs, hg, side_trace, ocr_text]⟩
          · rcases hb : env.ocr bp with e | docsb
            · exact ⟨[Event.chunk (ocr_text env bp),
                Event.embedIndex (split_text_str (ocr_text env bp)),
                Event.search back_query, Event.generate back_query],
                by simp [main_card_block, process_card_side, process_and_query, hf, he,
                  hs, hg, hb, side_trace, ocr_text]⟩
            · rcases docsb with _ | ⟨db, rb⟩
              · exact ⟨[Event.chunk (ocr_text env bp),
                  Event.embedIndex (split_text_str (ocr_text env bp)),
                  Event.search back_query, Event.generate back_query],
                  by simp [main_card_block, process_card_side, process_and_query, hf,
                    he, hs, hg, hb, side_trace, ocr_text]⟩
              · rcases he2 : env.embedIndex (split_text_str db.page_content) with e | u2
                · exact ⟨[Event.search back_query, Event.generate back_query],
                    by simp [main_card_block, process_card_side, process_and_query, hf,
                      he, hs, hg, hb, he2, side_trace, ocr_text]⟩
                · rcases hs2 : env.search back_query with e | sb
                  · exact ⟨[Event.generate back_query],
                      by simp [main_card_block, process_card_side, process_and_query,
                        hf, he, hs, hg, hb, he2, hs2, side_trace, ocr_text]⟩
                  · rcases hg2 : env.generate sb back_query with e | ab
                    · exact ⟨[],
                        by simp [main_card_block, process_card_side, process_and_query,
                          hf, he, hs, hg, hb, he2, hs2, hg2, side_trace, ocr_text]⟩
                    · refine ⟨[], ?_⟩
                      rcases hj1 : json_loads af with _ | fd <;>
                        rcases hj2 : json_loads ab with _ | bd <;>
                        simp [main_card_block, process_card_side, process_and_query,
                          hf, he, hs, hg, hb, he2, hs2, hg2, hj1, hj2, side_trace, ocr_text]

theorem main_card_block_ne_uncaught (env : Env)
    (json_loads : String → Option (List (String × String))) (fp bp : String) :
    (main_card_block env json_loads fp bp).1 ≠ Outcome.uncaught := by
  unfold main_card_block
  repeat' split
  all_goals simp

theorem main_card_block_no_upload (env : Env)
    (json_loads : String → Option (List (String × String))) (fp bp k : String) :
    Event.upload k ∉ (main_card_block env json_loads fp bp).2 := by
  intro hmem
  obtain ⟨rest, hrest⟩ := main_card_block_trace_le env json_loads fp bp
  have hm : Event.upload k ∈
      side_trace env fp front_query ++ side_trace env bp back_query := by
    rw [← hrest]
    exact List.mem_append_left _ hmem
  simp [side_trace] at hm

theorem main_card_block_success (env : Env)
    (json_loads : String → Option (List (String × String))) (fp bp : String)
    (df db : Document) (rf rb : List Document) (sf sb : List String) (af ab : String)
    (hf : env.ocr fp = Except.ok (df :: rf))
    (he : env.embedIndex (split_text_str df.page_content) = Except.ok ())
    (hs : env.search front_query = Except.ok sf)
    (hg : env.generate sf front_query = Except.ok af)
    (hb : env.ocr bp = Except.ok (db :: rb))
    (he2 : env.embedIndex (split_text_str db.page_content) = Except.ok ())
    (hs2 : env.search back_query = Except.ok sb)
    (hg2 : env.generate sb back_query = Except.ok ab) :
    main_card_block env json_loads fp bp =
      ((match json_loads af, json_loads ab with
        | some front_data, some back_data => Outcome.fields front_data back_data
        | _, _ => Outcome.errorMsg "Error processing the card information"),
       side_trace env fp front_query ++ side_trace env bp back_query) := by
  rcases hj1 : json_loads af with _ | fd <;> rcases hj2 : json_loads ab with _ | bd <;>
    simp [main_card_block, process_card_side, process_and_query,
      hf, he, hs, hg, hb, he2, hs2, hg2, hj1, hj2, side_trace, ocr_text]

theorem main_trace_le (env : Env)
    (json_loads : String → Option (List (String × String)))
    (process_button front_file back_file : Bool) :
    ∃ rest, (main_run env json_loads process_button front_file back_file).2 ++ rest =
      canonical_trace env := by
  cases process_button with
  | false => exact ⟨canonical_trace env, by simp [main_run]⟩
  | true =>
    cases front_file with
    | false => exact ⟨canonical_trace env, by simp [main_run]⟩
    | true =>
      cases back_file with
      | false => exact ⟨canonical_trace env, by simp [main_run]⟩
      | true =>
        rcases hfu : env.frontUpload with _ | _ | _
        · rcases hbu : env.backUpload with _ | _ | _
          · obtain ⟨rest, hrest⟩ :=
              main_card_block_trace_le env json_loads (front_path env) (back_path env)
            refine ⟨rest, ?_⟩
            simp [front_path, back_path] at hrest
            simp [main_run, upload_to_s3, hfu, hbu, canonical_trace, front_path,
              back_path, List.append_assoc, hrest]
          · exact ⟨side_trace env (front_path env) front_query ++
              side_trace env (back_path env) back_query,
              by simp [main_run, upload_to_s3, hfu, hbu, canonical_trace]⟩
          · exact ⟨side_trace env (front_path env) front_query ++
              side_trace env (back_path env) back_query,
              by simp [main_run, upload_to_s3, hfu, hbu, canonical_trace]⟩
        · rcases hbu : env.backUpload with _ | _ | _ <;>
            exact ⟨side_trace env (front_path env) front_query ++
              side_trace env (back_path env) back_query,
              by simp [main_run, upload_to_s3, hfu, hbu, canonical_trace]⟩
        · exact ⟨[Event.upload "cards/back.jpg"] ++
            side_trace env (front_path env) front_query ++
            side_trace env (back_path env) back_query,
            by simp [main_run, upload_to_s3, hfu, canonical_trace]⟩

theorem main_run_ne_uncaught (env : Env)
    (json_loads : String → Option (List (String × String)))
    (process_button front_file back_file : Bool)
    (hf : env.frontUpload ≠ UploadResult.otherException)
    (hb : env.backUpload ≠ UploadResult.otherException) :
    (main_run env json_loads process_button front_file back_file).1 ≠
      Outcome.uncaught := by
  cases process_button with
  | false => simp [main_run]
  | true =>
    cases front_file with
    | false => simp [main_run]
    | true =>
      cases back_file with
      | false => simp [main_run]
      | true =>
        rcases hfu : env.frontUpload with _ | _ | _
        · rcases hbu : env.backUpload with _ | _ | _
          · simpa [main_run, upload_to_s3, hfu, hbu] using
              main_card_block_ne_uncaught env json_loads (front_path env) (back_path env)
          · simp [main_run, upload_to_s3, hfu, hbu]
          · exact absurd hbu hb
        · rcases hbu : env.backUpload with _ | _ | _
          · simp [main_run, upload_to_s3, hfu, hbu]
          · simp [main_run, upload_to_s3, hfu, hbu]
          · exact absurd hbu hb
        · exact absurd hfu hf

/-! ## Claim theorems -/

/-- C1: for every input text, the configured splitter (chunk_size 512,
chunk_overlap 32) produces chunks each of length at most 512, consecutive
chunks overlap by 32 units, and concatenating the chunks with the declared
overlap removed reconstructs the input exactly. -/
theorem chunker_reconstruction (cs : List Char) :
    (∀ c ∈ split_text cs, c.length ≤ chunk_size)
    ∧ List.Chain' overlaps (split_text cs)
    ∧ reassemble (split_text cs) = cs :=
  ⟨split_text_chunk_length cs, split_text_chain cs, split_text_reassemble cs⟩

theorem chunker_reconstruction_witness :
    (['a', 'b'] : List Char).length ≤ chunk_size
    ∧ List.Chain' overlaps (split_text ['a', 'b'])
    ∧ reassemble (split_text ['a', 'b']) = ['a', 'b'] := by
  refine ⟨(chunker_reconstruction ['a', 'b']).1 ['a', 'b'] ?_,
    (chunker_reconstruction ['a', 'b']).2.1, (chunker_reconstruction ['a', 'b']).2.2⟩
  rw [split_text_small ['a', 'b'] (by decide) (by decide)]
  simp

/-- C6: the splitter returns exactly one chunk, the text itself, for any
non-empty text of length at most 512, and the empty sequence for the
empty text. -/
theorem chunker_small_empty :
    (∀ cs : List Char, cs ≠ [] → cs.length ≤ chunk_size → split_text cs = [cs])
    ∧ split_text [] = [] :=
  ⟨fun cs h0 h => split_text_small cs h h0, split_text_nil⟩

theorem chunker_small_empty_witness :
    split_text ['a'] = [['a']] ∧ split_text [] = [] :=
  ⟨chunker_small_empty.1 ['a'] (by decide) (by decide), chunker_small_empty.2⟩

/-- C7: the splitting step is deterministic; identical input texts yield
identical chunk sequences. -/
theorem chunker_deterministic (t1 t2 : List Char) (h : t1 = t2) :
    split_text t1 = split_text t2 := by
  rw [h]

theorem chunker_deterministic_witness :
    split_text ['a'] = split_text ['a'] :=
  chunker_deterministic ['a'] ['a'] rfl

/-- C4: at startup, if any of the six required settings is absent,
`get_secrets` raises an error naming the missing settings and startup
aborts; if all are present it returns exactly the mapping of the six
settings to their values. -/
theorem get_secrets_fatal :
    (∀ st_secrets : String → Option String, ∀ s, s ∈ required_secrets →
      st_secrets s = none →
      get_secrets st_secrets = Except.error ("Missing required secrets: " ++
        String.intercalate ", "
          (required_secrets.filter (fun r => (st_secrets r).isNone)))
      ∧ s ∈ required_secrets.filter (fun r => (st_secrets r).isNone)
      ∧ ∀ a, startup st_secrets ≠ Except.ok a)
    ∧ (∀ st_secrets : String → Option String, ∀ v : String → String,
        (∀ s ∈ required_secrets, st_secrets s = some (v s)) →
        get_secrets st_secrets = Except.ok (required_secrets.map (fun s => (s, v s)))) := by
  constructor
  · intro st_secrets s hs hnone
    have hmem : s ∈ required_secrets.filter (fun r => (st_secrets r).isNone) :=
      List.mem_filter.mpr ⟨hs, by simp [hnone]⟩
    have hne : required_secrets.filter (fun r => (st_secrets r).isNone) ≠ [] :=
      List.ne_nil_of_mem hmem
    have herr : get_secrets st_secrets = Except.error ("Missing required secrets: " ++
        String.intercalate ", "
          (required_secrets.filter (fun r => (st_secrets r).isNone))) := by
      unfold get_secrets
      simp [List.isEmpty_iff, hne]
    refine ⟨herr, hmem, ?_⟩
    intro a
    simp [startup, herr, Except.map]
  · intro st_secrets v hv
    have h1 := hv "OPENAI_API_KEY" (by simp [required_secrets])
    have h2 := hv "LLAMA_CLOUD_API_KEY" (by simp [required_secrets])
    have h3 := hv "AWS_ACCESS_KEY" (by simp [required_secrets])
    have h4 := hv "AWS_SECRET_KEY" (by simp [required_secrets])
    have h5 := hv "AWS_BUCKET_NAME" (by simp [required_secrets])
    have h6 := hv "AWS_REGION" (by simp [required_secrets])
    simp [get_secrets, required_secrets, h1, h2, h3, h4, h5, h6]

/-- A secrets table with AWS_REGION missing, for the startup witness. -/
def secrets_missing_w : String → Option String :=
  fun s => if s = "AWS_REGION" then none else some "x"

/-- A secrets table with every setting present, for the startup witness. -/
def secrets_full_w : String → Option String :=
  fun _ => some "v"

theorem get_secrets_fatal_witness :
    get_secrets secrets_missing_w = Except.error ("Missing required secrets: " ++
      String.intercalate ", "
        (required_secrets.filter (fun r => (secrets_missing_w r).isNone)))
    ∧ get_secrets secrets_full_w =
        Except.ok (required_secrets.map (fun s => (s, "v"))) :=
  ⟨(get_secrets_fatal.1 secrets_missing_w "AWS_REGION" (by simp [required_secrets])
      (by simp [secrets_missing_w])).1,
   get_secrets_fatal.2 secrets_full_w (fun _ => "v") (fun s _ => rfl)⟩

/-- C10: `process_card_side` returns only the page content of the first
document the OCR loader produces; later documents are discarded, and an
empty document list makes the call fail with the IndexError rather than
return an empty text. -/
theorem first_document_only (env : Env) (path : String) (docs : List Document)
    (h : env.ocr path = Except.ok docs) :
    (docs = [] →
      (process_card_side env path).1 = Except.error "list index out of range")
    ∧ (∀ d rest, docs = d :: rest →
        (process_card_side env path).1 = Except.ok d.page_content) := by
  constructor
  · intro hd
    subst hd
    simp [process_card_side, h]
  · intro d rest hd
    subst hd
    simp [process_card_side, h]

/-- An OCR oracle returning no documents for path `a` and two documents for
any other path, for the `first_document_only` witness. -/
def env_docs_w : Env where
  bucket := "bucket"
  frontUpload := UploadResult.ok
  backUpload := UploadResult.ok
  ocr := fun p =>
    if p = "a" then Except.ok []
    else Except.ok [Document.mk "first", Document.mk "second"]
  embedIndex := fun _ => Except.ok ()
  search := fun _ => Except.ok []
  generate := fun _ _ => Except.ok "answer"

theorem first_document_only_witness :
    (process_card_side env_docs_w "a").1 = Except.error "list index out of range"
    ∧ (process_card_side env_docs_w "b").1 = Except.ok "first" :=
  ⟨(first_document_only env_docs_w "a" [] (by simp [env_docs_w])).1 rfl,
   (first_document_only env_docs_w "b" [Document.mk "first", Document.mk "second"]
      (by simp [env_docs_w])).2 (Document.mk "first") [Document.mk "second"] rfl⟩

/-- C5: a submission with either image missing produces the validation
warning and performs no pipeline work at all: no upload, no OCR call,
no chunking, no retrieval and no model call. -/
theorem missing_image_no_work (env : Env)
    (json_loads : String → Option (List (String × String)))
    (front_file back_file : Bool) (h : front_file = false ∨ back_file = false) :
    main_run env json_loads true front_file back_file =
      (Outcome.warning "Please upload both front and back images", []) := by
  rcases h with h | h
  · subst h
    simp [main_run]
  · subst h
    cases front_file <;> simp [main_run]

/-- The environment in which every external call succeeds, for witnesses. -/
def env_ok_w : Env where
  bucket := "bucket"
  frontUpload := UploadResult.ok
  backUpload := UploadResult.ok
  ocr := fun _ => Except.ok [Document.mk "text"]
  embedIndex := fun _ => Except.ok ()
  search := fun _ => Except.ok []
  generate := fun _ _ => Except.ok "answer"

/-- A `json.loads` oracle on which every parse fails, for witnesses. -/
def json_none_w : String → Option (List (String × String)) :=
  fun _ => none

theorem missing_image_no_work_witness :
    main_run env_ok_w json_none_w true false true =
      (Outcome.warning "Please upload both front and back images", []) :=
  missing_image_no_work env_ok_w json_none_w false true (Or.inl rfl)

/-- C2: when every step up to answering succeeds but either side's answer is
not valid JSON, `json.loads` raises, the run shows exactly the message
`Error processing the card information`, does not crash, and displays no
field of either side. -/
theorem malformed_json_error (env : Env)
    (json_loads : String → Option (List (String × String)))
    (df db : Document) (rf rb : List Document) (sf sb : List String) (af ab : String)
    (hfu : env.frontUpload = UploadResult.ok)
    (hbu : env.backUpload = UploadResult.ok)
    (hof : env.ocr (front_path env) = Except.ok (df :: rf))
    (hef : env.embedIndex (split_text_str df.page_content) = Except.ok ())
    (hsf : env.search front_query = Except.ok sf)
    (hgf : env.generate sf front_query = Except.ok af)
    (hob : env.ocr (back_path env) = Except.ok (db :: rb))
    (heb : env.embedIndex (split_text_str db.page_content) = Except.ok ())
    (hsb : env.search back_query = Except.ok sb)
    (hgb : env.generate sb back_query = Except.ok ab)
    (hj : json_loads af = none ∨ json_loads ab = none) :
    (main_run env json_loads true true true).1 =
      Outcome.errorMsg "Error processing the card information"
    ∧ (∀ fd bd, (main_run env json_loads true true true).1 ≠ Outcome.fields fd bd)
    ∧ (main_run env json_loads true true true).1 ≠ Outcome.uncaught := by
  simp only [front_path] at hof
  simp only [back_path] at hob
  have hblock := main_card_block_success env json_loads
    ("s3://" ++ env.bucket ++ "/" ++ ("cards" ++ "/" ++ "front.jpg"))
    ("s3://" ++ env.bucket ++ "/" ++ ("cards" ++ "/" ++ "back.jpg"))
    df db rf rb sf sb af ab hof hef hsf hgf hob heb hsb hgb
  have hmain : (main_run env json_loads true true true).1 =
      Outcome.errorMsg "Error processing the card information" := by
    simp only [main_run, upload_to_s3, hfu, hbu]
    simp only [String.append_assoc]
    simp only [String.append_assoc] at hblock
    rw [hblock]
    rcases hj with hj | hj
    · simp [hj]
    · rcases hja : json_loads af with _ | fd <;> simp [hja, hj]
  refine ⟨hmain, ?_, ?_⟩
  · intro fd bd
    rw [hmain]
    simp
  · rw [hmain]
    simp

theorem malformed_json_error_witness :
    (main_run env_ok_w json_none_w true true true).1 =
      Outcome.errorMsg "Error processing the card information" :=
  (malformed_json_error env_ok_w json_none_w (Document.mk "text") (Document.mk "text")
    [] [] [] [] "answer" "answer" rfl rfl rfl rfl rfl rfl rfl rfl rfl rfl
    (Or.inl rfl)).1

/-- An environment whose back-image upload raises an exception other than
`NoCredentialsError` (e.g. a boto3 service error), while everything else
succeeds. -/
def env_back_crash : Env where
  bucket := "bucket"
  frontUpload := UploadResult.ok
  backUpload := UploadResult.otherException
  ocr := fun _ => Except.ok [Document.mk "text"]
  embedIndex := fun _ => Except.ok ()
  search := fun _ => Except.ok []
  generate := fun _ _ => Except.ok "answer"

/-- C3 counterexample: a storage-upload failure that is not a
`NoCredentialsError` is not caught anywhere — `upload_to_s3` only catches
`NoCredentialsError` (src/main.py line 54) and the upload calls sit outside
the `try` of `main` (src/main.py lines 192-196) — so the run ends with an
uncaught exception and no user-visible error message, contradicting the
claim that every per-request upload failure is converted to a message. -/
theorem upload_exception_uncaught :
    (main_run env_back_crash json_none_w true true true).1 = Outcome.uncaught
    ∧ (main_run env_back_crash json_none_w true true true).1 ≠
        Outcome.errorMsg "Error uploading files" := by
  constructor
  · rfl
  · intro h
    simp [main_run, upload_to_s3, env_back_crash] at h

/-- C3 as amended: failures of the calls made inside the `try` of `main`
(OCR, embedding, retrieval, generation, JSON parsing) are always caught at
the pipeline boundary and never escape as an uncaught exception — provided
neither upload raises a non-credentials exception — and an upload failing
with the handled `NoCredentialsError` yields exactly the upload-error
message with no pipeline work beyond the two uploads, so no partial
front-side result is presented. -/
theorem upload_error_boundary :
    (∀ (env : Env) (json_loads : String → Option (List (String × String)))
      (process_button front_file back_file : Bool),
      env.frontUpload ≠ UploadResult.otherException →
      env.backUpload ≠ UploadResult.otherException →
      (main_run env json_loads process_button front_file back_file).1 ≠
        Outcome.uncaught)
    ∧ (∀ (env : Env) (json_loads : String → Option (List (String × String))),
        env.frontUpload ≠ UploadResult.otherException →
        env.backUpload ≠ UploadResult.otherException →
        (env.frontUpload = UploadResult.noCredentials ∨
          env.backUpload = UploadResult.noCredentials) →
        main_run env json_loads true true true =
          (Outcome.errorMsg "Error uploading files",
           [Event.upload "cards/front.jpg", Event.upload "cards/back.jpg"])) := by
  constructor
  · intro env json_loads process_button front_file back_file hf hb
    exact main_run_ne_uncaught env json_loads process_button front_file back_file hf hb
  · intro env json_loads hf hb hnc
    rcases hfu : env.frontUpload with _ | _ | _
    · rcases hbu : env.backUpload with _ | _ | _
      · rw [hfu, hbu] at hnc
        simp at hnc
      · simp [main_run, upload_to_s3, hfu, hbu]
      · exact absurd hbu hb
    · rcases hbu : env.backUpload with _ | _ | _
      · simp [main_run, upload_to_s3, hfu, hbu]
      · simp [main_run, upload_to_s3, hfu, hbu]
      · exact absurd hbu hb
    · exact absurd hfu hf

/-- The all-successful environment with the back upload failing on
credentials, for the boundary witness. -/
def env_nocreds_w : Env where
  bucket := "bucket"
  frontUpload := UploadResult.ok
  backUpload := UploadResult.noCredentials
  ocr := fun _ => Except.ok [Document.mk "text"]
  embedIndex := fun _ => Except.ok ()
  search := fun _ => Except.ok []
  generate := fun _ _ => Except.ok "answer"

theorem upload_error_boundary_witness :
    (main_run env_nocreds_w json_none_w true true true).1 ≠ Outcome.uncaught
    ∧ main_run env_nocreds_w json_none_w true true true =
        (Outcome.errorMsg "Error uploading files",
         [Event.upload "cards/front.jpg", Event.upload "cards/back.jpg"]) :=
  ⟨upload_error_boundary.1 env_nocreds_w json_none_w true true true
      (by simp [env_nocreds_w]) (by simp [env_nocreds_w]),
   upload_error_boundary.2 env_nocreds_w json_none_w
      (by simp [env_nocreds_w]) (by simp [env_nocreds_w]) (Or.inr rfl)⟩

/-- C8: pipeline steps execute in program order with each external call a
single attempt: every run's call trace is an initial segment of the
canonical order (uploads, then front OCR, front chunking, front indexing,
front retrieval, front answering, then the same for the back side), and a
fully successful run performs exactly those twelve calls in that order —
in particular front answering never precedes front OCR, and the whole
front side precedes back OCR. -/
theorem pipeline_ordering :
    (∀ (env : Env) (json_loads : String → Option (List (String × String)))
      (process_button front_file back_file : Bool),
      ∃ rest,
        (main_run env json_loads process_button front_file back_file).2 ++ rest =
          canonical_trace env)
    ∧ (∀ (env : Env) (json_loads : String → Option (List (String × String)))
        (df db : Document) (rf rb : List Document) (sf sb : List String)
        (af ab : String),
        env.frontUpload = UploadResult.ok →
        env.backUpload = UploadResult.ok →
        env.ocr (front_path env) = Except.ok (df :: rf) →
        env.embedIndex (split_text_str df.page_content) = Except.ok () →
        env.search front_query = Except.ok sf →
        env.generate sf front_query = Except.ok af →
        env.ocr (back_path env) = Except.ok (db :: rb) →
        env.embedIndex (split_text_str db.page_content) = Except.ok () →
        env.search back_query = Except.ok sb →
        env.generate sb back_query = Except.ok ab →
        (main_run env json_loads true true true).2 =
          [Event.upload "cards/front.jpg", Event.upload "cards/back.jpg",
           Event.ocr (front_path env), Event.chunk df.page_content,
           Event.embedIndex (split_text_str df.page_content),
           Event.search front_query, Event.generate front_query,
           Event.ocr (back_path env), Event.chunk db.page_content,
           Event.embedIndex (split_text_str db.page_content),
           Event.search back_query, Event.generate back_query]) := by
  constructor
  · intro env json_loads process_button front_file back_file
    exact main_trace_le env json_loads process_button front_file back_file
  · intro env json_loads df db rf rb sf sb af ab hfu hbu hof hef hsf hgf hob heb hsb hgb
    simp only [front_path] at hof ⊢
    simp only [back_path] at hob ⊢
    have hblock := main_card_block_success env json_loads
      ("s3://" ++ env.bucket ++ "/" ++ ("cards" ++ "/" ++ "front.jpg"))
      ("s3://" ++ env.bucket ++ "/" ++ ("cards" ++ "/" ++ "back.jpg"))
      df db rf rb sf sb af ab hof hef hsf hgf hob heb hsb hgb
    simp only [main_run, upload_to_s3, hfu, hbu]
    simp only [String.append_assoc] at hblock ⊢
    rw [hblock]
    simp only [String.append_assoc] at hof hob
    simp at hof hob
    simp [side_trace, ocr_text, hof, hob]

theorem pipeline_ordering_witness :
    (∃ rest, (main_run env_ok_w json_none_w true true true).2 ++ rest =
      canonical_trace env_ok_w)
    ∧ (main_run env_ok_w json_none_w true true true).2 =
        [Event.upload "cards/front.jpg", Event.upload "cards/back.jpg",
         Event.ocr (front_path env_ok_w), Event.chunk "text",
         Event.embedIndex (split_text_str "text"),
         Event.search front_query, Event.generate front_query,
         Event.ocr (back_path env_ok_w), Event.chunk "text",
         Event.embedIndex (split_text_str "text"),
         Event.search back_query, Event.generate back_query] :=
  ⟨pipeline_ordering.1 env_ok_w json_none_w true true true,
   pipeline_ordering.2 env_ok_w json_none_w (Document.mk "text") (Document.mk "text")
     [] [] [] [] "answer" "answer" rfl rfl rfl rfl rfl rfl rfl rfl rfl rfl⟩

/-- C9: a successful upload with filename `f` (under the fixed folder
`cards`) returns the locator `s3://bucket/cards/f`, and the pipeline only
ever uploads to the two fixed keys `cards/front.jpg` and `cards/back.jpg`,
so every request overwrites the same two storage objects. -/
theorem upload_locator_fixed_keys :
    (∀ bucket filename : String,
      upload_to_s3 bucket UploadResult.ok filename "cards" =
        UploadReturn.path ("s3://" ++ bucket ++ "/cards/" ++ filename))
    ∧ (∀ (env : Env) (json_loads : String → Option (List (String × String)))
        (process_button front_file back_file : Bool) (k : String),
        Event.upload k ∈
          (main_run env json_loads process_button front_file back_file).2 →
        k = "cards/front.jpg" ∨ k = "cards/back.jpg") := by
  constructor
  · intro bucket filename
    simp only [upload_to_s3, String.append_assoc]
    have h : ("/" : String) ++ ("cards" ++ ("/" ++ filename)) = "/cards/" ++ filename := by
      rw [← String.append_assoc, ← String.append_assoc]
      have h2 : (("/" : String) ++ "cards") ++ "/" = "/cards/" := by decide
      rw [h2]
    rw [h]
  · intro env json_loads process_button front_file back_file k hmem
    obtain ⟨rest, hrest⟩ :=
      main_trace_le env json_loads process_button front_file back_file
    have hm : Event.upload k ∈ canonical_trace env := by
      rw [← hrest]
      exact List.mem_append_left rest hmem
    simp [canonical_trace, side_trace] at hm
    exact hm

theorem upload_locator_fixed_keys_witness :
    upload_to_s3 "bucket" UploadResult.ok "front.jpg" "cards" =
      UploadReturn.path ("s3://" ++ "bucket" ++ "/cards/" ++ "front.jpg")
    ∧ ("cards/front.jpg" = "cards/front.jpg" ∨ "cards/front.jpg" = "cards/back.jpg") :=
  ⟨upload_locator_fixed_keys.1 "bucket" "front.jpg",
   upload_locator_fixed_keys.2 env_ok_w json_none_w true true true "cards/front.jpg"
     (by simp [main_run, upload_to_s3, env_ok_w])⟩
